import Mathlib

/-!
Shallow embedding of the market-maker strategy core from
src/strategy/market_maker.py.

Pure pricing code (generate_orders and its helpers) is translated to pure
functions over the rationals; Python float arithmetic is modelled by exact
rational arithmetic with round-half-to-even rounding (round built-in).
The stateful controller is translated to explicit state passing over a
world record that carries the strategy state, oracles for the external
collaborators (order ledger, connectivity layer, clock) and an event trace
recording external calls and flag writes.  Python exceptions are modelled
by Except.  The mutually recursive failure-recovery cluster is expressed
as one structurally recursive function over a fuel parameter; running out
of fuel plays the role of the RecursionError the unbounded Python
recursion would raise.
-/

namespace MarketMakerBot

section

attribute [local semireducible] Rat.add Rat.mul Rat.sub Rat.inv

/-- Python round built-in restricted to integral results: round half to even. -/
def pyRoundInt (x : ℚ) : ℤ :=
  let f := x.floor
  let r := x - (f : ℚ)
  if r < 1/2 then f
  else if 1/2 < r then f + 1
  else if f % 2 = 0 then f else f + 1

/-- Python round built-in with a digit count: round half to even at n decimal
places. -/
def pyRound (x : ℚ) (n : ℕ) : ℚ :=
  (pyRoundInt (x * (10 : ℚ) ^ n) : ℚ) / (10 : ℚ) ^ n

/-- Top-of-book value: class tob of definitions, as read by the strategy. -/
structure Tob where
  best_bid_price : ℚ
  best_ask_price : ℚ
deriving DecidableEq, Repr

/-- Order side enumeration: order_side of definitions. -/
inductive order_side where
  | buy
  | sell
deriving DecidableEq, Repr

/-- Order type enumeration: order_type of definitions. -/
inductive order_type where
  | limit
deriving DecidableEq, Repr

/-- Order request record: order_request of definitions, with the fields the
strategy fills in generate_orders. -/
structure order_request where
  instrument_name : String
  side : order_side
  type : order_type
  price : ℚ
  quantity : ℚ
deriving DecidableEq, Repr

/-- The configuration options market_maker._load_configuration requires plus
the ask and bid ladders read in __init__. -/
structure Config where
  instrument_name : String
  mid_price_based_calculation : Bool
  tick_size : ℚ
  price_rounding : ℕ
  cancel_orders_on_start : Bool
  stop_strategy_on_error : Bool
  cancel_orders_on_reconnection : Bool
  asks : List (ℤ × ℚ)
  bids : List (ℤ × ℚ)

/-- The rounded mid price of market_maker.generate_orders, lines 206-208:
round(round(mid_price / tick_size) * tick_size, price_rounding). -/
def roundedMid (cfg : Config) (t : Tob) : ℚ :=
  pyRound
    ((pyRoundInt (((t.best_ask_price + t.best_bid_price) / 2) / cfg.tick_size) : ℚ) *
      cfg.tick_size)
    cfg.price_rounding

/-- The anchor prices (best_ask, best_bid after the mid-price adjustment)
computed at the top of market_maker.generate_orders, lines 204-218. -/
def mm_anchors (cfg : Config) (t : Tob) : ℚ × ℚ :=
  let best_ask := t.best_ask_price
  let best_bid := t.best_bid_price
  if cfg.mid_price_based_calculation then
    let mid_price := (t.best_ask_price + t.best_bid_price) / 2
    let rounded_mid := roundedMid cfg t
    if best_ask - best_bid = 2 * cfg.tick_size then
      (pyRound (rounded_mid + cfg.tick_size) cfg.price_rounding,
       pyRound (rounded_mid - cfg.tick_size) cfg.price_rounding)
    else if rounded_mid ≥ mid_price then
      (rounded_mid, pyRound (rounded_mid - cfg.tick_size) cfg.price_rounding)
    else
      (pyRound (rounded_mid + cfg.tick_size) cfg.price_rounding, rounded_mid)
  else
    (best_ask, best_bid)

/-- market_maker.generate_orders, lines 203-242: one sell order per
configured ask then one buy order per configured bid. -/
def generate_orders (cfg : Config) (t : Tob) : List order_request :=
  let anchors := mm_anchors cfg t
  cfg.asks.map (fun quote =>
    { instrument_name := cfg.instrument_name
      side := order_side.sell
      type := order_type.limit
      price := pyRound (anchors.1 + cfg.tick_size * (quote.1 : ℚ)) cfg.price_rounding
      quantity := quote.2 }) ++
  cfg.bids.map (fun quote =>
    { instrument_name := cfg.instrument_name
      side := order_side.buy
      type := order_type.limit
      price := pyRound (anchors.2 - cfg.tick_size * (quote.1 : ℚ)) cfg.price_rounding
      quantity := quote.2 })


/-- The exceptions the embedded controller can raise or observe.  The
constructors mirror the failure points of market_maker.py: failures of the
external collaborators (cancel, reconnect, amend, ledger state update), the
wrapped re-raise in on_market_update, the terminal raise after 5 failed
recovery attempts, the two raise sites guarded by a False recovery result,
the attribute access on a missing top of book, and exhaustion of the
recursion bound (the analogue of a Python RecursionError). -/
inductive Err where
  | cancelErr
  | reconnectErr
  | amendErr
  | ledgerUpdateErr
  | onMarketUpdateWrapped
  | terminalRetries
  | cancelOrdersFailure
  | handleExceptionFailed
  | gatewayError
  | pyNoneError
  | fuelOut
deriving DecidableEq, Repr

/-- Observable events: calls into the order ledger and connectivity layer,
the log line at the top of each recovery attempt, and writes to the
reconnecting flag. -/
inductive Event where
  | cancelCall (ok : Bool)
  | reconnectCall (ok : Bool)
  | amendCall (ok : Bool)
  | activateCall
  | updateStateCall (ok : Bool)
  | attemptStarted
  | setReconnectingEv (b : Bool)
deriving DecidableEq, Repr

/-- The mutable fields of market_maker set in __init__, lines 44-53. -/
structure State where
  update_orders : Bool
  started_time : ℚ
  last_amend_time : Option ℚ
  reconnecting : Bool
  active : Bool
  tob : Option Tob
  num_of_sent_orders : ℕ
  cancel_all_request_was_sent : Bool
deriving DecidableEq, Repr

/-- Oracles for the external collaborators: outcome of the n-th call to each
order-ledger and connectivity operation, and the n-th reading of the clock. -/
structure Env where
  cancelF : ℕ → Bool
  reconnectF : ℕ → Bool
  amendF : ℕ → Bool
  updF : ℕ → Bool
  readyF : ℕ → ℕ
  liveF : ℕ → ℕ
  timeF : ℕ → ℚ

/-- A world: strategy state, oracles, per-oracle call counters, and the trace
of observable events so far. -/
structure W where
  s : State
  env : Env
  cancelIdx : ℕ
  reconnectIdx : ℕ
  amendIdx : ℕ
  updIdx : ℕ
  readyIdx : ℕ
  liveIdx : ℕ
  timeIdx : ℕ
  tr : List Event

/-- State-and-exception monad over worlds: each step returns a result or a
raised exception, together with the world at that point (Python exceptions
leave earlier mutations in place). -/
def M (α : Type) : Type := W → Except Err α × W

instance : Monad M where
  pure a := fun w => (Except.ok a, w)
  bind x f := fun w =>
    match x w with
    | (Except.ok a, w1) => f a w1
    | (Except.error e, w1) => (Except.error e, w1)

def getS : M State := fun w => (Except.ok w.s, w)

def modS (f : State → State) : M Unit := fun w => (Except.ok (), { w with s := f w.s })

def raiseE {α : Type} (e : Err) : M α := fun w => (Except.error e, w)

/-- time.time() -/
def timeNow : M ℚ := fun w =>
  (Except.ok (w.env.timeF w.timeIdx), { w with timeIdx := w.timeIdx + 1 })

/-- Assignment to self.reconnecting, recorded in the trace. -/
def set_reconnecting (b : Bool) : M Unit := fun w =>
  (Except.ok (), { w with s := { w.s with reconnecting := b },
                          tr := w.tr ++ [Event.setReconnectingEv b] })

/-- orders_manager.cancel_active_orders: succeeds or raises per the oracle. -/
def cancel_active_orders : M Unit := fun w =>
  let ok := w.env.cancelF w.cancelIdx
  ((if ok then Except.ok () else Except.error Err.cancelErr),
   { w with cancelIdx := w.cancelIdx + 1, tr := w.tr ++ [Event.cancelCall ok] })

/-- exchange_adapter.reconnect -/
def reconnect_adapter : M Unit := fun w =>
  let ok := w.env.reconnectF w.reconnectIdx
  ((if ok then Except.ok () else Except.error Err.reconnectErr),
   { w with reconnectIdx := w.reconnectIdx + 1, tr := w.tr ++ [Event.reconnectCall ok] })

/-- orders_manager.amend_active_orders -/
def amend_active_orders (_orders : List order_request) : M Unit := fun w =>
  let ok := w.env.amendF w.amendIdx
  ((if ok then Except.ok () else Except.error Err.amendErr),
   { w with amendIdx := w.amendIdx + 1, tr := w.tr ++ [Event.amendCall ok] })

/-- orders_manager.update_order_state -/
def update_order_state : M Unit := fun w =>
  let ok := w.env.updF w.updIdx
  ((if ok then Except.ok () else Except.error Err.ledgerUpdateErr),
   { w with updIdx := w.updIdx + 1, tr := w.tr ++ [Event.updateStateCall ok] })

/-- orders_manager.get_number_of_ready_for_amend -/
def get_number_of_ready_for_amend : M ℕ := fun w =>
  (Except.ok (w.env.readyF w.readyIdx), { w with readyIdx := w.readyIdx + 1 })

/-- len(orders_manager.live_orders_ids) -/
def live_orders_count : M ℕ := fun w =>
  (Except.ok (w.env.liveF w.liveIdx), { w with liveIdx := w.liveIdx + 1 })

/-- orders_manager.activate_orders -/
def activate_orders : M Unit := fun w =>
  (Except.ok (), { w with tr := w.tr ++ [Event.activateCall] })


/-- The log line at the top of the underscore-prefixed handle_exception
(line 97), recorded as the start of one recovery attempt. -/
def emitAttempt : M Unit := fun w =>
  (Except.ok (), { w with tr := w.tr ++ [Event.attemptStarted] })


/-- The class constant TIME_TO_WAIT_SINCE_START_SECS = 10. -/
def TIME_TO_WAIT_SINCE_START_SECS : ℚ := 10

/-- The class constant MAX_NUMBER_OF_ATTEMPTS_SECS = 5. -/
def MAX_NUMBER_OF_ATTEMPTS_SECS : ℚ := 5

/-- Names for the members of the mutually recursive failure-recovery cluster
of market_maker: handle_exception (hexc), its bounded while loop (retry with
the remaining attempt count), the underscore-prefixed handle_exception
(hexcI, with the stop_strategy parameter of line 96), stop_strategy (stopS),
reset (resetR) and the underscore-prefixed cancel_orders (cancelO). -/
inductive RCall where
  | hexc (msg : String)
  | retry (n : ℕ) (msg : String)
  | hexcI (stop : Bool) (msg : String)
  | stopS
  | resetR (msg : String)
  | cancelO

/-- Rendering of a caught exception as the next err_msg; the strategy only
logs these strings, so their content is irrelevant. -/
def errMsg : Err → String := fun _ => "error"

/-- The mutually recursive failure-recovery cluster of market_maker, lines
75-141, as one structurally recursive function over a fuel bound.  Every
internal call of the cluster consumes one unit of fuel; running out raises
fuelOut (the analogue of the RecursionError the unbounded Python mutual
recursion would eventually raise, which `except Exception` also catches).
- hexc msg: handle_exception, lines 75-94 — runs the retry loop 5 times.
- retry n msg: one iteration of the while loop, lines 84-93 — on success of
  the attempt returns True, on an exception retries with the new message;
  after the attempts are exhausted raises the terminal error of line 94.
- hexcI stop msg: _handle_exception, lines 96-109 — logs (attemptStarted),
  optionally stops the strategy, sets reconnecting, resets, restarts the
  warm-up clock, clears reconnecting, returns True.
- stopS: stop_strategy, lines 111-119 — cancels (the except block re-raises
  unchanged), then sets active = False.
- resetR: reset, lines 122-130 — clears cancel_all_request_was_sent, on
  cancel_orders_on_reconnection cancels and clears last_amend_time and
  num_of_sent_orders, then reconnects.
- cancelO: _cancel_orders, lines 133-141 — tries the ledger cancel; on an
  exception routes it through handle_exception, raising only if that
  recovery returns False (line 140) or itself raises. -/
def recov (cfg : Config) : ℕ → RCall → M Bool
  | 0, _ => raiseE Err.fuelOut
  | fuel+1, RCall.hexc msg => recov cfg fuel (RCall.retry 5 msg)
  | _+1, RCall.retry 0 _ => raiseE Err.terminalRetries
  | fuel+1, RCall.retry (n+1) msg => fun w =>
      match recov cfg fuel (RCall.hexcI cfg.stop_strategy_on_error msg) w with
      | (Except.ok _, w1) => (Except.ok true, w1)
      | (Except.error e, w1) => recov cfg fuel (RCall.retry n (errMsg e)) w1
  | fuel+1, RCall.hexcI stop msg => do
      emitAttempt
      if stop = true then do
        let _ ← recov cfg fuel RCall.stopS
        pure ()
      else pure ()
      set_reconnecting true
      let _ ← recov cfg fuel (RCall.resetR msg)
      let t ← timeNow
      modS (fun s => { s with started_time := t })
      set_reconnecting false
      pure true
  | fuel+1, RCall.stopS => do
      let _ ← recov cfg fuel RCall.cancelO
      modS (fun s => { s with active := false })
      pure true
  | fuel+1, RCall.resetR _ => do
      modS (fun s => { s with cancel_all_request_was_sent := false })
      if cfg.cancel_orders_on_reconnection = true then do
        let _ ← recov cfg fuel RCall.cancelO
        modS (fun s => { s with cancel_all_request_was_sent := true,
                                last_amend_time := none,
                                num_of_sent_orders := 0 })
      else pure ()
      reconnect_adapter
      pure true
  | fuel+1, RCall.cancelO => fun w =>
      match cancel_active_orders w with
      | (Except.ok _, w1) => (Except.ok true, w1)
      | (Except.error e, w1) =>
        match recov cfg fuel (RCall.hexc (errMsg e)) w1 with
        | (Except.ok res, w2) =>
            if res = false then (Except.error Err.cancelOrdersFailure, w2)
            else (Except.ok true, w2)
        | (Except.error e2, w2) => (Except.error e2, w2)

/-- market_maker.handle_exception. -/
def handle_exception (cfg : Config) (fuel : ℕ) (msg : String) : M Bool :=
  recov cfg fuel (RCall.hexc msg)

/-- The underscore-prefixed handle_exception of market_maker (one recovery
attempt), with its stop_strategy parameter. -/
def handle_exceptionI (cfg : Config) (fuel : ℕ) (stop : Bool) (msg : String) : M Bool :=
  recov cfg fuel (RCall.hexcI stop msg)

/-- market_maker.stop_strategy. -/
def stop_strategy (cfg : Config) (fuel : ℕ) : M Unit := fun w =>
  match recov cfg fuel RCall.stopS w with
  | (Except.ok _, w1) => (Except.ok (), w1)
  | (Except.error e, w1) => (Except.error e, w1)

/-- The underscore-prefixed cancel_orders of market_maker. -/
def cancel_ordersI (cfg : Config) (fuel : ℕ) : M Unit := fun w =>
  match recov cfg fuel RCall.cancelO w with
  | (Except.ok _, w1) => (Except.ok (), w1)
  | (Except.error e, w1) => (Except.error e, w1)

/-- market_maker.tob_moved, lines 191-194. -/
def tob_moved (cur t : Tob) : Bool :=
  if cur.best_bid_price ≠ t.best_bid_price ∨ cur.best_ask_price ≠ t.best_ask_price then
    true
  else
    false

/-- Return value of the underscore-prefixed orders_are_ready_for_amend:
Python returns either True or the integer count of ready orders. -/
inductive ReadyResult where
  | ready
  | notReady (count : ℕ)
deriving DecidableEq, Repr

/-- The underscore-prefixed orders_are_ready_for_amend of market_maker,
lines 196-201.  Python tests `if self.last_amend_time`, which is truthiness:
None and the timestamp 0.0 are both falsy; the conjunction short-circuits,
so the live-order count is read only when last_amend_time is truthy. -/
def orders_are_ready_for_amendI : M ReadyResult := do
  let known ← get_number_of_ready_for_amend
  let s ← getS
  match s.last_amend_time with
  | none => pure ReadyResult.ready
  | some t0 =>
    if t0 = 0 then pure ReadyResult.ready
    else do
      let live ← live_orders_count
      if 0 < live ∧ known ≠ s.num_of_sent_orders then pure (ReadyResult.notReady known)
      else pure ReadyResult.ready

/-- The inbound update variants of definitions, consumed by
market_maker.on_market_update.  An ExchangeOrdersSnapshot carries the lists
of live bid and ask order identifiers. -/
inductive Update where
  | tobU (t : Tob)
  | exchangeOrdersU (bids asks : List ℕ)
  | newOrderAckU (orderid : ℕ)
  | amendAckU (orderid : ℕ)
  | newOrderNackU (orderid : ℕ)
  | amendNackU (orderid : ℕ)
  | orderFillAckU (orderid : ℕ)
  | orderFullFillAckU (orderid : ℕ)
deriving DecidableEq, Repr

/-- market_maker.process_active_orders_on_start, lines 143-150. -/
def process_active_orders_on_start (cfg : Config) (fuel : ℕ)
    (bids asks : List ℕ) : M Unit := do
  if (bids ++ asks).length = 0 ∨ cfg.cancel_orders_on_start = true then pure ()
  else if (bids ++ asks).length % 2 ≠ 0 then cancel_ordersI cfg fuel
  else activate_orders

/-- The fall-through tail of on_market_update, lines 170-175: forward the
update to the order ledger; a failure there is wrapped and re-raised. -/
def forward_to_ledger : M Unit := fun w =>
  match update_order_state w with
  | (Except.ok _, w1) => (Except.ok (), w1)
  | (Except.error _, w1) => (Except.error Err.onMarketUpdateWrapped, w1)

/-- market_maker.on_market_update, lines 152-175. -/
def on_market_update (cfg : Config) (fuel : ℕ) (u : Update) : M Unit := do
  let s ← getS
  if s.active = false then pure ()
  else
    match u with
    | Update.tobU t =>
      match s.tob with
      | none => modS (fun st => { st with update_orders := true, tob := some t })
      | some cur =>
        if tob_moved cur t = true then
          modS (fun st => { st with update_orders := true, tob := some t })
        else pure ()
    | Update.exchangeOrdersU bids asks => process_active_orders_on_start cfg fuel bids asks
    | Update.newOrderAckU _ => forward_to_ledger
    | Update.amendAckU _ => forward_to_ledger
    | Update.newOrderNackU _ => forward_to_ledger
    | Update.amendNackU _ => forward_to_ledger
    | Update.orderFillAckU _ => forward_to_ledger
    | Update.orderFullFillAckU _ => forward_to_ledger

/-- market_maker.process_market_move, lines 244-288. -/
def process_market_move (cfg : Config) (fuel : ℕ) : M Unit := do
  let s ← getS
  if s.active = false then pure ()
  else if s.reconnecting = true then pure ()
  else do
    let res ← orders_are_ready_for_amendI
    match res with
    | ReadyResult.notReady _known => do
        let s1 ← getS
        let t ← timeNow
        if s1.last_amend_time.getD 0 + MAX_NUMBER_OF_ATTEMPTS_SECS < t then do
          let res2 ← handle_exception cfg fuel "stale orders"
          if res2 = false then raiseE Err.handleExceptionFailed
          else pure ()
        else pure ()
    | ReadyResult.ready => do
        let s1 ← getS
        match s1.tob with
        | none => raiseE Err.pyNoneError
        | some t0 => fun w =>
          let orders := generate_orders cfg t0
          match amend_active_orders orders w with
          | (Except.ok _, w1) =>
              (do
                let t ← timeNow
                modS (fun st => { st with last_amend_time := some t,
                                          num_of_sent_orders := orders.length })) w1
          | (Except.error e, w1) =>
              (do
                let res3 ← handle_exception cfg fuel (errMsg e)
                if res3 = false then raiseE Err.gatewayError
                else pure ()) w1

/-- market_maker.run, lines 177-189. -/
def run (cfg : Config) (fuel : ℕ) : M Unit := do
  let s ← getS
  if s.active = false then pure ()
  else
    match s.tob with
    | none => pure ()
    | some _ =>
      if s.update_orders = false then pure ()
      else do
        let t ← timeNow
        if s.started_time + TIME_TO_WAIT_SINCE_START_SECS > t then pure ()
        else do
          modS (fun st => { st with update_orders := false })
          process_market_move cfg fuel

/-- A configuration with the ladders fixed to one level-0 order per side and
the three behaviour flags chosen per scenario. -/
def mkCfg (stop cor start : Bool) : Config :=
  { instrument_name := ""
    mid_price_based_calculation := false
    tick_size := 1/2
    price_rounding := 1
    cancel_orders_on_start := start
    stop_strategy_on_error := stop
    cancel_orders_on_reconnection := cor
    asks := [(0, 1)]
    bids := [(0, 1)] }

/-- An environment in which every external call succeeds, the ledger reports
no live or ready orders, and the clock always reads 100. -/
def happyEnv : Env :=
  { cancelF := fun _ => true
    reconnectF := fun _ => true
    amendF := fun _ => true
    updF := fun _ => true
    readyF := fun _ => 0
    liveF := fun _ => 0
    timeF := fun _ => 100 }

/-- The state market_maker.__init__ leaves behind (at start time 0). -/
def initState : State :=
  { update_orders := false
    started_time := 0
    last_amend_time := none
    reconnecting := false
    active := true
    tob := none
    num_of_sent_orders := 0
    cancel_all_request_was_sent := false }

/-- A world with fresh call counters and an empty trace. -/
def mkW (s : State) (env : Env) : W :=
  { s := s, env := env, cancelIdx := 0, reconnectIdx := 0, amendIdx := 0,
    updIdx := 0, readyIdx := 0, liveIdx := 0, timeIdx := 0, tr := [] }

/-- A world identical to w except that the strategy has been stopped. -/
def deactivate (w : W) : W := { w with s := { w.s with active := false } }

/-- The errors that can escape handle_exception, the retry loop,
stop_strategy and the underscore-prefixed cancel_orders: only the terminal
error of line 94 or recursion exhaustion. -/
def coreErr (e : Err) : Prop := e = Err.terminalRetries ∨ e = Err.fuelOut

/-- The errors that can escape one recovery attempt (the underscore-prefixed
handle_exception, or reset): additionally a reconnect failure. -/
def attemptErr (e : Err) : Prop := coreErr e ∨ e = Err.reconnectErr

/-- The error bound for each member of the recovery cluster. -/
def rcallErr : RCall → Err → Prop
  | RCall.hexcI _ _, e => attemptErr e
  | RCall.resetR _, e => attemptErr e
  | _, e => coreErr e

/-- The mid-price recenter scenario of the spec: tick 0.5, one decimal of
rounding, mid-price mode on, one level-0 quote per side. -/
def cfgRecenter : Config :=
  { mkCfg false false false with mid_price_based_calculation := true }

/-- Top of book (100.0, 101.0) for the recenter scenario. -/
def tobRecenter : Tob := { best_bid_price := 100, best_ask_price := 101 }

/-- The mid-price anchor-up scenario of the spec: tick 1, integer rounding,
mid-price mode on. -/
def cfgAnchorUp : Config :=
  { mkCfg false false false with mid_price_based_calculation := true,
                                 tick_size := 1, price_rounding := 0 }

/-- Top of book (100, 103) for the anchor-up scenario. -/
def tobAnchorUp : Tob := { best_bid_price := 100, best_ask_price := 103 }

deriving instance DecidableEq for Except

@[simp] theorem bind_app {α β : Type} (x : M α) (f : α → M β) (w : W) :
    (x >>= f) w = match x w with
      | (Except.ok a, w1) => f a w1
      | (Except.error e, w1) => (Except.error e, w1) := rfl

@[simp] theorem pure_app {α : Type} (a : α) (w : W) :
    (pure a : M α) w = (Except.ok a, w) := rfl

@[simp] theorem ite_app {α : Type} (c : Prop) [Decidable c] (x y : M α) (w : W) :
    (if c then x else y) w = if c then x w else y w := by
  split <;> rfl

@[simp] theorem getS_app (w : W) : getS w = (Except.ok w.s, w) := rfl

@[simp] theorem modS_app (f : State → State) (w : W) :
    modS f w = (Except.ok (), { w with s := f w.s }) := rfl

@[simp] theorem raiseE_app {α : Type} (e : Err) (w : W) :
    (raiseE e : M α) w = (Except.error e, w) := rfl

@[simp] theorem timeNow_app (w : W) :
    timeNow w = (Except.ok (w.env.timeF w.timeIdx), { w with timeIdx := w.timeIdx + 1 }) := rfl

@[simp] theorem set_reconnecting_app (b : Bool) (w : W) :
    set_reconnecting b w =
      (Except.ok (), { w with s := { w.s with reconnecting := b },
                              tr := w.tr ++ [Event.setReconnectingEv b] }) := rfl

@[simp] theorem cancel_active_orders_app (w : W) :
    cancel_active_orders w =
      ((if w.env.cancelF w.cancelIdx then Except.ok () else Except.error Err.cancelErr),
       { w with cancelIdx := w.cancelIdx + 1,
                tr := w.tr ++ [Event.cancelCall (w.env.cancelF w.cancelIdx)] }) := rfl

@[simp] theorem reconnect_adapter_app (w : W) :
    reconnect_adapter w =
      ((if w.env.reconnectF w.reconnectIdx then Except.ok () else Except.error Err.reconnectErr),
       { w with reconnectIdx := w.reconnectIdx + 1,
                tr := w.tr ++ [Event.reconnectCall (w.env.reconnectF w.reconnectIdx)] }) := rfl

@[simp] theorem amend_active_orders_app (orders : List order_request) (w : W) :
    amend_active_orders orders w =
      ((if w.env.amendF w.amendIdx then Except.ok () else Except.error Err.amendErr),
       { w with amendIdx := w.amendIdx + 1,
                tr := w.tr ++ [Event.amendCall (w.env.amendF w.amendIdx)] }) := rfl

@[simp] theorem update_order_state_app (w : W) :
    update_order_state w =
      ((if w.env.updF w.updIdx then Except.ok () else Except.error Err.ledgerUpdateErr),
       { w with updIdx := w.updIdx + 1,
                tr := w.tr ++ [Event.updateStateCall (w.env.updF w.updIdx)] }) := rfl

@[simp] theorem get_number_of_ready_for_amend_app (w : W) :
    get_number_of_ready_for_amend w =
      (Except.ok (w.env.readyF w.readyIdx), { w with readyIdx := w.readyIdx + 1 }) := rfl

@[simp] theorem live_orders_count_app (w : W) :
    live_orders_count w =
      (Except.ok (w.env.liveF w.liveIdx), { w with liveIdx := w.liveIdx + 1 }) := rfl

@[simp] theorem activate_orders_app (w : W) :
    activate_orders w = (Except.ok (), { w with tr := w.tr ++ [Event.activateCall] }) := rfl

@[simp] theorem emitAttempt_app (w : W) :
    emitAttempt w = (Except.ok (), { w with tr := w.tr ++ [Event.attemptStarted] }) := rfl

/-- Every member of the recovery cluster that returns normally returns True:
the Python bodies end in `return True` (or fall off the end after a
successful cancel), never `return False`. -/
theorem recov_ok_true (cfg : Config) :
    ∀ fuel c w r w2, recov cfg fuel c w = (Except.ok r, w2) → r = true := by
  intro fuel
  induction fuel with
  | zero =>
    intro c w r w2 h
    simp [recov, raiseE] at h
  | succ f ih =>
    intro c w r w2 h
    cases c with
    | hexc msg =>
      simp only [recov] at h
      exact ih _ _ _ _ h
    | retry n msg =>
      cases n with
      | zero => simp [recov, raiseE] at h
      | succ m =>
        simp only [recov] at h
        cases hx : recov cfg f (RCall.hexcI cfg.stop_strategy_on_error msg) w with
        | mk res w1 =>
          rw [hx] at h
          cases res with
          | ok a =>
            simp at h
            exact h.1
          | error e =>
            simp at h
            exact ih _ _ _ _ h
    | hexcI stop msg =>
      simp only [recov, bind_app, ite_app, emitAttempt_app, set_reconnecting_app,
        timeNow_app, modS_app, pure_app] at h
      split at h <;> (try split at h) <;> (try split at h) <;> simp_all
    | stopS =>
      simp only [recov, bind_app, modS_app, pure_app] at h
      split at h <;> simp_all
    | resetR msg =>
      simp only [recov, bind_app, ite_app, modS_app, pure_app,
        reconnect_adapter_app] at h
      split at h <;> (try split at h) <;> (try split at h) <;> simp_all
    | cancelO =>
      simp only [recov] at h
      cases hx : cancel_active_orders w with
      | mk res w1 =>
        rw [hx] at h
        cases res with
        | ok a => simp_all
        | error e =>
          simp only at h
          cases hy : recov cfg f (RCall.hexc (errMsg e)) w1 with
          | mk res2 w2x =>
            rw [hy] at h
            cases res2 with
            | ok b =>
              have hb := ih _ _ _ _ hy
              subst hb
              simp_all
            | error e2 => simp_all


/-- Error characterisation of the recovery cluster: handle_exception, the
retry loop, stop_strategy and the underscore-prefixed cancel_orders can only
raise the terminal error or recursion exhaustion; a single attempt or reset
can additionally surface a reconnect failure.  In particular the raise of
line 140 (guarded by a False result of handle_exception) never fires. -/
theorem recov_err_set (cfg : Config) :
    ∀ fuel c w e w2, recov cfg fuel c w = (Except.error e, w2) → rcallErr c e := by
  intro fuel
  induction fuel with
  | zero =>
    intro c w e w2 h
    simp [recov, raiseE] at h
    cases c <;> simp [rcallErr, coreErr, attemptErr, h.1]
  | succ f ih =>
    intro c w e w2 h
    cases c with
    | hexc msg =>
      simp only [recov] at h
      have := ih _ _ _ _ h
      simpa [rcallErr] using this
    | retry n msg =>
      cases n with
      | zero =>
        simp [recov, raiseE] at h
        simp [rcallErr, coreErr, h.1]
      | succ m =>
        simp only [recov] at h
        cases hx : recov cfg f (RCall.hexcI cfg.stop_strategy_on_error msg) w with
        | mk res w1 =>
          rw [hx] at h
          cases res with
          | ok a => simp_all
          | error e1 =>
            simp only at h
            have := ih _ _ _ _ h
            simpa [rcallErr] using this
    | hexcI stop msg =>
      simp only [recov, bind_app, ite_app, emitAttempt_app, set_reconnecting_app,
        timeNow_app, modS_app, pure_app] at h
      cases hstop : stop with
      | false =>
        simp only [hstop, Bool.false_eq_true, if_false, if_neg] at h
        split at h
        · simp_all
        · rename_i heq
          have := ih _ _ _ _ heq
          simp_all [rcallErr, attemptErr, coreErr]
      | true =>
        simp only [hstop, if_pos, if_true] at h
        split at h
        · rename_i heq1
          split at h
          · simp_all
          · rename_i heq2
            have := ih _ _ _ _ heq2
            simp_all [rcallErr, attemptErr, coreErr]
        · rename_i heq1
          have := ih _ _ _ _ heq1
          simp_all [rcallErr, attemptErr, coreErr]
    | stopS =>
      simp only [recov, bind_app, modS_app, pure_app] at h
      split at h
      · simp_all
      · rename_i heq
        have := ih _ _ _ _ heq
        simp_all [rcallErr]
    | resetR msg =>
      simp only [recov, bind_app, ite_app, modS_app, pure_app,
        reconnect_adapter_app] at h
      cases hcor : cfg.cancel_orders_on_reconnection with
      | false =>
        simp only [hcor, Bool.false_eq_true, if_false, if_neg] at h
        split at h
        · simp_all
        · rename_i heq
          split at heq
          · simp_all
          · simp_all [rcallErr, attemptErr]
      | true =>
        simp only [hcor, if_pos, if_true] at h
        split at h
        · rename_i heq1
          split at h
          · simp_all
          · rename_i heq2
            split at heq2
            · simp_all
            · simp_all [rcallErr, attemptErr]
        · rename_i heq1
          have := ih _ _ _ _ heq1
          simp_all [rcallErr, attemptErr, coreErr]
    | cancelO =>
      simp only [recov] at h
      cases hx : cancel_active_orders w with
      | mk res w1 =>
        rw [hx] at h
        cases res with
        | ok a => simp_all
        | error e1 =>
          simp only at h
          cases hy : recov cfg f (RCall.hexc (errMsg e1)) w1 with
          | mk res2 w2x =>
            rw [hy] at h
            cases res2 with
            | ok b =>
              have hb := recov_ok_true cfg f _ _ _ _ hy
              subst hb
              simp_all
            | error e2 =>
              simp only at h
              obtain ⟨he, -⟩ := Prod.mk.injEq .. ▸ h
              have := ih _ _ _ _ hy
              simp_all [rcallErr]

/-- The recovery cluster never revives a stopped strategy: if active is
false on entry it is false in the resulting world, whichever member runs and
however it exits.  The only write to active anywhere in the cluster is the
assignment to False in stop_strategy. -/
theorem recov_active_false (cfg : Config) :
    ∀ fuel c w, w.s.active = false → (((recov cfg fuel c w).2).s.active = false) := by
  intro fuel
  induction fuel with
  | zero =>
    intro c w hw
    simpa [recov, raiseE] using hw
  | succ f ih =>
    have step : ∀ c1 w1 r1 w2, recov cfg f c1 w1 = (r1, w2) →
        w1.s.active = false → w2.s.active = false := by
      intro c1 w1 r1 w2 hEq ha
      have := ih c1 w1 ha
      rw [hEq] at this
      exact this
    intro c w hw
    cases c with
    | hexc msg =>
      simpa only [recov] using ih _ _ hw
    | retry n msg =>
      cases n with
      | zero => simpa [recov, raiseE] using hw
      | succ m =>
        simp only [recov]
        split
        · rename_i a w1 heq
          simpa using step _ _ _ _ heq hw
        · rename_i e w1 heq
          exact ih _ _ (step _ _ _ _ heq hw)
    | hexcI stop msg =>
      simp only [recov, bind_app, ite_app, emitAttempt_app, set_reconnecting_app,
        timeNow_app, modS_app, pure_app]
      cases hstop : stop with
      | false =>
        simp only [Bool.false_eq_true, if_false, if_neg]
        split
        · rename_i a w1 heq
          simpa using step _ _ _ _ heq (by simpa using hw)
        · rename_i e w1 heq
          simpa using step _ _ _ _ heq (by simpa using hw)
      | true =>
        simp only [if_pos, if_true]
        split
        · rename_i a w1 heq1
          have h1 : w1.s.active = false := step _ _ _ _ heq1 (by simpa using hw)
          split
          · rename_i b w2 heq2
            simpa using step _ _ _ _ heq2 (by simpa using h1)
          · rename_i e w2 heq2
            simpa using step _ _ _ _ heq2 (by simpa using h1)
        · rename_i e w1 heq1
          simpa using step _ _ _ _ heq1 (by simpa using hw)
    | stopS =>
      simp only [recov, bind_app, modS_app, pure_app]
      split
      · simp
      · rename_i e w1 heq
        simpa using step _ _ _ _ heq hw
    | resetR msg =>
      simp only [recov, bind_app, ite_app, modS_app, pure_app,
        reconnect_adapter_app]
      cases hcor : cfg.cancel_orders_on_reconnection with
      | false =>
        simp only [Bool.false_eq_true, if_false, if_neg]
        cases hrc : w.env.reconnectF w.reconnectIdx with
        | true => simp [hrc, hw]
        | false => simp [hrc, hw]
      | true =>
        simp only [if_pos, if_true]
        split
        · rename_i a w1 heq1
          have h1 : w1.s.active = false := step _ _ _ _ heq1 (by simpa using hw)
          cases hrc : w1.env.reconnectF w1.reconnectIdx with
          | true => simp [hrc, h1]
          | false => simp [hrc, h1]
        · rename_i e w1 heq1
          simpa using step _ _ _ _ heq1 (by simpa using hw)
    | cancelO =>
      simp only [recov, cancel_active_orders_app]
      cases hcf : w.env.cancelF w.cancelIdx with
      | true => simp [hcf, hw]
      | false =>
        simp only [hcf, Bool.false_eq_true, if_false, if_neg]
        split
        · rename_i b w2 heq1
          have h2 : w2.s.active = false := step _ _ _ _ heq1 (by simp [hw])
          split
          · simpa using h2
          · simpa using h2
        · rename_i e2 w2 heq1
          simpa using step _ _ _ _ heq1 (by simp [hw])

/-- C6: while active, a TopOfBook update equal to the stored one (same best
bid and best ask) leaves the whole world unchanged — in particular dirty
stays false if it was false — while a first observation or a changed price
stores the update and sets dirty.  Hence feeding the same pair twice never
sets dirty on the second call. -/
theorem C6_idempotent_tob_updates (cfg : Config) (fuel : ℕ) (w : W) (u : Tob)
    (hactive : w.s.active = true) :
    (∀ cur, w.s.tob = some cur →
      cur.best_bid_price = u.best_bid_price → cur.best_ask_price = u.best_ask_price →
      on_market_update cfg fuel (Update.tobU u) w = (Except.ok (), w)) ∧
    (w.s.tob = none →
      on_market_update cfg fuel (Update.tobU u) w =
        (Except.ok (), { w with s := { w.s with update_orders := true, tob := some u } })) ∧
    (∀ cur, w.s.tob = some cur →
      (cur.best_bid_price ≠ u.best_bid_price ∨ cur.best_ask_price ≠ u.best_ask_price) →
      on_market_update cfg fuel (Update.tobU u) w =
        (Except.ok (), { w with s := { w.s with update_orders := true, tob := some u } })) := by
  refine ⟨?_, ?_, ?_⟩
  · intro cur hsome h1 h2
    simp [on_market_update, hactive, hsome, tob_moved, h1, h2]
  · intro hnone
    simp [on_market_update, hactive, hnone]
  · intro cur hsome hne
    have hm : tob_moved cur u = true := by
      simp only [tob_moved]
      rw [if_pos hne]
    simp [on_market_update, hactive, hsome, hm]

/-- Witness for C6 at a concrete input: the stored book is (100, 101) and
the same pair arrives again; the call is a complete no-op. -/
theorem C6_witness :
    on_market_update (mkCfg false false false) 5
      (Update.tobU { best_bid_price := 100, best_ask_price := 101 })
      (mkW { initState with tob := some { best_bid_price := 100, best_ask_price := 101 } }
        happyEnv) =
      (Except.ok (),
       mkW { initState with tob := some { best_bid_price := 100, best_ask_price := 101 } }
        happyEnv) :=
  (C6_idempotent_tob_updates _ _ _ _ rfl).1 _ rfl rfl rfl

/-- C9: the readiness check returns True exactly when no amend was ever sent
(last_amend_time is falsy), or the set of live tracked orders is empty, or
the count of ready-for-amend orders equals num_of_sent_orders; otherwise it
returns that count.  The hypothesis excludes the timestamp 0, on which
Python truthiness of last_amend_time would also report ready.  The check
never mutates the strategy state. -/
theorem C9_readiness_check (w : W)
    (h : ∀ t0, w.s.last_amend_time = some t0 → t0 ≠ 0) :
    (orders_are_ready_for_amendI w).1 =
      Except.ok
        (if w.s.last_amend_time = none ∨ w.env.liveF w.liveIdx = 0 ∨
            w.env.readyF w.readyIdx = w.s.num_of_sent_orders
         then ReadyResult.ready
         else ReadyResult.notReady (w.env.readyF w.readyIdx)) ∧
    ((orders_are_ready_for_amendI w).2).s = w.s := by
  simp only [orders_are_ready_for_amendI, bind_app, get_number_of_ready_for_amend_app,
    getS_app, live_orders_count_app, pure_app]
  cases hl : w.s.last_amend_time with
  | none => simp
  | some t0 =>
    have ht0 : ¬(t0 = 0) := h t0 hl
    simp only [ht0, if_false, if_neg, bind_app, live_orders_count_app, pure_app,
      ite_app]
    by_cases hlive : w.env.liveF w.liveIdx = 0
    · simp [hlive]
    · by_cases hcount : w.env.readyF w.readyIdx = w.s.num_of_sent_orders
      · simp [hlive, hcount]
      · simp [hlive, hcount, Nat.pos_of_ne_zero hlive]

/-- Witness for C9 at the concrete inputs of the spec: with four orders sent
and four ready the check reports ready; with only two ready it reports not
ready and returns 2. -/
theorem C9_witness :
    (orders_are_ready_for_amendI
      (mkW { initState with last_amend_time := some 50, num_of_sent_orders := 4 }
        { happyEnv with readyF := fun _ => 4, liveF := fun _ => 3 })).1 =
      Except.ok ReadyResult.ready ∧
    (orders_are_ready_for_amendI
      (mkW { initState with last_amend_time := some 50, num_of_sent_orders := 4 }
        { happyEnv with readyF := fun _ => 2, liveF := fun _ => 3 })).1 =
      Except.ok (ReadyResult.notReady 2) := by
  constructor
  · have := (C9_readiness_check
      (mkW { initState with last_amend_time := some 50, num_of_sent_orders := 4 }
        { happyEnv with readyF := fun _ => 4, liveF := fun _ => 3 })
      (by intro t0 h0; simp [mkW, initState] at h0; simp [h0.symm])).1
    simpa [mkW, initState, happyEnv] using this
  · have := (C9_readiness_check
      (mkW { initState with last_amend_time := some 50, num_of_sent_orders := 4 }
        { happyEnv with readyF := fun _ => 2, liveF := fun _ => 3 })
      (by intro t0 h0; simp [mkW, initState] at h0; simp [h0.symm])).1
    simpa [mkW, initState, happyEnv] using this


/-- The router is a no-op on a stopped strategy: with active false,
on_market_update returns immediately and the world is untouched
(lines 152-155). -/
theorem on_market_update_inactive (cfg : Config) (fuel : ℕ) (u : Update) (w : W)
    (h : w.s.active = false) :
    on_market_update cfg fuel u w = (Except.ok (), w) := by
  simp [on_market_update, h]

/-- The tick is a no-op on a stopped strategy (lines 177-180). -/
theorem run_inactive (cfg : Config) (fuel : ℕ) (w : W)
    (h : w.s.active = false) :
    run cfg fuel w = (Except.ok (), w) := by
  simp [run, h]

/-- process_market_move is a no-op on a stopped strategy (lines 244-247). -/
theorem process_market_move_inactive (cfg : Config) (fuel : ℕ) (w : W)
    (h : w.s.active = false) :
    process_market_move cfg fuel w = (Except.ok (), w) := by
  simp [process_market_move, h]

/-- The readiness check never raises: every path of lines 196-201 returns a
value. -/
theorem orders_ready_ok (w : W) :
    ∃ r w1, orders_are_ready_for_amendI w = (Except.ok r, w1) := by
  simp only [orders_are_ready_for_amendI, bind_app, get_number_of_ready_for_amend_app,
    getS_app, live_orders_count_app, pure_app]
  cases hl : w.s.last_amend_time with
  | none => exact ⟨_, _, rfl⟩
  | some t0 =>
    by_cases h0 : t0 = 0
    · simp only [h0, if_pos, if_true, ite_app]
      exact ⟨_, _, rfl⟩
    · simp only [h0, if_false, if_neg, bind_app, live_orders_count_app, pure_app,
        ite_app]
      by_cases hc : 0 < w.env.liveF w.liveIdx ∧
          w.env.readyF w.readyIdx ≠ w.s.num_of_sent_orders
      · rw [if_pos hc]
        exact ⟨_, _, rfl⟩
      · rw [if_neg hc]
        exact ⟨_, _, rfl⟩


/-- C7: in mid-price mode the anchors follow the three-branch rule of
generate_orders lines 210-218, and on the two concrete scenarios of the
spec the anchors are ask 101.0 / bid 100.0 (recenter, tick 0.5) and ask 102
/ bid 101 (anchor-up, tick 1). -/
theorem C7_mid_price_three_branch_rule :
    (∀ cfg t, cfg.mid_price_based_calculation = true →
      (t.best_ask_price - t.best_bid_price = 2 * cfg.tick_size →
        mm_anchors cfg t =
          (pyRound (roundedMid cfg t + cfg.tick_size) cfg.price_rounding,
           pyRound (roundedMid cfg t - cfg.tick_size) cfg.price_rounding)) ∧
      (t.best_ask_price - t.best_bid_price ≠ 2 * cfg.tick_size →
        roundedMid cfg t ≥ (t.best_ask_price + t.best_bid_price) / 2 →
        mm_anchors cfg t =
          (roundedMid cfg t,
           pyRound (roundedMid cfg t - cfg.tick_size) cfg.price_rounding)) ∧
      (t.best_ask_price - t.best_bid_price ≠ 2 * cfg.tick_size →
        ¬(roundedMid cfg t ≥ (t.best_ask_price + t.best_bid_price) / 2) →
        mm_anchors cfg t =
          (pyRound (roundedMid cfg t + cfg.tick_size) cfg.price_rounding,
           roundedMid cfg t))) ∧
    mm_anchors cfgRecenter tobRecenter = (101, 100) ∧
    (generate_orders cfgRecenter tobRecenter).map order_request.price = [101, 100] ∧
    mm_anchors cfgAnchorUp tobAnchorUp = (102, 101) := by
  refine ⟨?_, by decide, by decide, by decide⟩
  intro cfg t hmid
  refine ⟨?_, ?_, ?_⟩
  · intro h1
    simp [mm_anchors, hmid, h1]
  · intro h1 h2
    simp [mm_anchors, hmid, h1, h2]
  · intro h1 h2
    simp [mm_anchors, hmid, h1, h2]

/-- Witness for C7: the recenter scenario satisfies the spread condition and
the theorem instantiates to its first branch there. -/
theorem C7_witness :
    mm_anchors cfgRecenter tobRecenter =
      (pyRound (roundedMid cfgRecenter tobRecenter + cfgRecenter.tick_size)
        cfgRecenter.price_rounding,
       pyRound (roundedMid cfgRecenter tobRecenter - cfgRecenter.tick_size)
        cfgRecenter.price_rounding) :=
  (C7_mid_price_three_branch_rule.1 cfgRecenter tobRecenter rfl).1 (by decide)

/-- C8: generate_orders emits exactly one sell order per configured ask then
one buy order per configured bid, in configuration order, with type limit,
the configured quantity, and price round(anchor plus-or-minus tick times
level, precision); with mid-price mode off the anchors are the raw best ask
and best bid. -/
theorem C8_generate_orders_structure (cfg : Config) (t : Tob) :
    generate_orders cfg t =
      cfg.asks.map (fun quote =>
        { instrument_name := cfg.instrument_name
          side := order_side.sell
          type := order_type.limit
          price := pyRound ((mm_anchors cfg t).1 + cfg.tick_size * (quote.1 : ℚ))
            cfg.price_rounding
          quantity := quote.2 }) ++
      cfg.bids.map (fun quote =>
        { instrument_name := cfg.instrument_name
          side := order_side.buy
          type := order_type.limit
          price := pyRound ((mm_anchors cfg t).2 - cfg.tick_size * (quote.1 : ℚ))
            cfg.price_rounding
          quantity := quote.2 }) ∧
    (generate_orders cfg t).length = cfg.asks.length + cfg.bids.length ∧
    (cfg.mid_price_based_calculation = false →
      mm_anchors cfg t = (t.best_ask_price, t.best_bid_price)) := by
  refine ⟨rfl, by simp [generate_orders], ?_⟩
  intro h
  simp [mm_anchors, h]

/-- Witness for C8: with mid-price mode off the anchors are the raw book. -/
theorem C8_witness :
    mm_anchors (mkCfg false false false)
      { best_bid_price := 100, best_ask_price := 101 } = (101, 100) :=
  (C8_generate_orders_structure (mkCfg false false false)
    { best_bid_price := 100, best_ask_price := 101 }).2.2 rfl

/-- C5: active is monotonic — every member of the recovery cluster, the
router, the tick and process_market_move leaves active false once it is
false (equivalently, a true result implies it was true before) — and on a
stopped strategy (active = false) both on_market_update, for every update
variant, and run return immediately with the whole world unchanged. -/
theorem C5_active_monotonic_and_stop_noop (cfg : Config) (fuel : ℕ) (c : RCall)
    (u : Update) (w : W) :
    (w.s.active = true ∨ (((recov cfg fuel c w).2).s.active = false)) ∧
    (w.s.active = true ∨ (((on_market_update cfg fuel u w).2).s.active = false)) ∧
    (w.s.active = true ∨ (((run cfg fuel w).2).s.active = false)) ∧
    (w.s.active = true ∨ (((process_market_move cfg fuel w).2).s.active = false)) ∧
    on_market_update cfg fuel u (deactivate w) = (Except.ok (), deactivate w) ∧
    run cfg fuel (deactivate w) = (Except.ok (), deactivate w) := by
  refine ⟨?_, ?_, ?_, ?_, ?_, ?_⟩
  · cases hw : w.s.active with
    | true => exact Or.inl rfl
    | false => exact Or.inr (recov_active_false cfg fuel c w hw)
  · cases hw : w.s.active with
    | true => exact Or.inl rfl
    | false =>
      right
      rw [on_market_update_inactive cfg fuel u w hw]
      exact hw
  · cases hw : w.s.active with
    | true => exact Or.inl rfl
    | false =>
      right
      rw [run_inactive cfg fuel w hw]
      exact hw
  · cases hw : w.s.active with
    | true => exact Or.inl rfl
    | false =>
      right
      rw [process_market_move_inactive cfg fuel w hw]
      exact hw
  · exact on_market_update_inactive cfg fuel u (deactivate w) (by simp [deactivate])
  · exact run_inactive cfg fuel (deactivate w) (by simp [deactivate])

/-- C10: handle_exception never returns False — it returns True or raises
(the terminal error of line 94, or recursion exhaustion) — and consequently
the branches guarded by a False recovery result are dead: the
underscore-prefixed cancel_orders never raises its line-140 exception
(cancelOrdersFailure) and process_market_move never raises its
handle_exception-failed or GatewayError exceptions; their only outcomes are
the ones listed here. -/
theorem C10_handle_exception_never_false (cfg : Config) (fuel : ℕ) (msg : String)
    (w : W) :
    ((handle_exception cfg fuel msg w).1 = Except.ok true ∨
     (handle_exception cfg fuel msg w).1 = Except.error Err.terminalRetries ∨
     (handle_exception cfg fuel msg w).1 = Except.error Err.fuelOut) ∧
    ((cancel_ordersI cfg fuel w).1 = Except.ok () ∨
     (cancel_ordersI cfg fuel w).1 = Except.error Err.terminalRetries ∨
     (cancel_ordersI cfg fuel w).1 = Except.error Err.fuelOut) ∧
    ((process_market_move cfg fuel w).1 = Except.ok () ∨
     (process_market_move cfg fuel w).1 = Except.error Err.terminalRetries ∨
     (process_market_move cfg fuel w).1 = Except.error Err.fuelOut ∨
     (process_market_move cfg fuel w).1 = Except.error Err.pyNoneError) := by
  refine ⟨?_, ?_, ?_⟩
  · cases h : recov cfg fuel (RCall.hexc msg) w with
    | mk r w2 =>
      cases r with
      | ok b =>
        have hb := recov_ok_true cfg fuel _ _ _ _ h
        subst hb
        left
        simp [handle_exception, h]
      | error e =>
        have he : e = Err.terminalRetries ∨ e = Err.fuelOut := by
          simpa [rcallErr, coreErr] using recov_err_set cfg fuel _ _ _ _ h
        rcases he with rfl | rfl
        · right; left
          simp [handle_exception, h]
        · right; right
          simp [handle_exception, h]
  · cases h : recov cfg fuel RCall.cancelO w with
    | mk r w2 =>
      cases r with
      | ok b =>
        left
        simp [cancel_ordersI, h]
      | error e =>
        have he : e = Err.terminalRetries ∨ e = Err.fuelOut := by
          simpa [rcallErr, coreErr] using recov_err_set cfg fuel _ _ _ _ h
        rcases he with rfl | rfl
        · right; left
          simp [cancel_ordersI, h]
        · right; right
          simp [cancel_ordersI, h]
  · by_cases ha : w.s.active = false
    · left
      simp [process_market_move_inactive cfg fuel w ha]
    · by_cases hr : w.s.reconnecting = true
      · left
        simp [process_market_move, ha, hr]
      · obtain ⟨rr, w1, hro⟩ := orders_ready_ok w
        simp only [process_market_move, bind_app, getS_app, ite_app, pure_app,
          timeNow_app, modS_app, amend_active_orders_app, raiseE_app]
        rw [if_neg ha, if_neg hr, hro]
        cases rr with
        | notReady k =>
          simp only [bind_app, getS_app, timeNow_app, ite_app, pure_app,
            raiseE_app]
          by_cases hst : w1.s.last_amend_time.getD 0 + MAX_NUMBER_OF_ATTEMPTS_SECS <
              w1.env.timeF w1.timeIdx
          · rw [if_pos hst]
            cases hh : recov cfg fuel (RCall.hexc "stale orders")
                { w1 with timeIdx := w1.timeIdx + 1 } with
            | mk r2 w3 =>
              simp only [handle_exception, hh]
              cases r2 with
              | ok b =>
                have hb := recov_ok_true cfg fuel _ _ _ _ hh
                subst hb
                left
                simp
              | error e =>
                have he : e = Err.terminalRetries ∨ e = Err.fuelOut := by
                  simpa [rcallErr, coreErr] using recov_err_set cfg fuel _ _ _ _ hh
                rcases he with rfl | rfl
                · right; left; simp
                · right; right; left; simp
          · rw [if_neg hst]
            left
            rfl
        | ready =>
          simp only [bind_app, getS_app, pure_app]
          cases ht : w1.s.tob with
          | none =>
            right; right; right
            simp [raiseE]
          | some t0 =>
            cases haf : w1.env.amendF w1.amendIdx with
            | true =>
              left
              simp [haf]
            | false =>
              simp only [haf, Bool.false_eq_true, if_false, if_neg]
              cases hh : recov cfg fuel (RCall.hexc (errMsg Err.amendErr))
                  { w1 with amendIdx := w1.amendIdx + 1,
                            tr := w1.tr ++ [Event.amendCall false] } with
              | mk r2 w3 =>
                simp only [handle_exception, bind_app, hh]
                cases r2 with
                | ok b =>
                  have hb := recov_ok_true cfg fuel _ _ _ _ hh
                  subst hb
                  left
                  simp
                | error e =>
                  have he : e = Err.terminalRetries ∨ e = Err.fuelOut := by
                    simpa [rcallErr, coreErr] using
                      recov_err_set cfg fuel _ _ _ _ hh
                  rcases he with rfl | rfl
                  · right; left; simp
                  · right; right; left; simp

/-- C3: when every recovery attempt raises (here: reconnect always fails,
with the stop and cancel-on-reconnection flags off so the attempt fails at
the reconnect call), handle_exception performs exactly 5 attempts — the
trace gains exactly five attempt-start log events and five failed reconnect
calls — and then raises the terminal error of line 94.  (In Python that
raise itself evaluates the undefined name get_filename_and_lineno and so
surfaces as a NameError, still a terminal exception after 5 attempts.) -/
theorem C3_bounded_retry_exactly_five (cfg : Config) (k : ℕ) (msg : String) (w : W)
    (h1 : cfg.stop_strategy_on_error = false)
    (h2 : cfg.cancel_orders_on_reconnection = false)
    (h3 : w.env.reconnectF = fun _ => false) :
    handle_exception cfg (k + 8) msg w =
      (Except.error Err.terminalRetries,
       { w with s := { w.s with reconnecting := true,
                                cancel_all_request_was_sent := false },
                reconnectIdx := w.reconnectIdx + 5,
                tr := w.tr ++
                  [Event.attemptStarted, Event.setReconnectingEv true,
                   Event.reconnectCall false,
                   Event.attemptStarted, Event.setReconnectingEv true,
                   Event.reconnectCall false,
                   Event.attemptStarted, Event.setReconnectingEv true,
                   Event.reconnectCall false,
                   Event.attemptStarted, Event.setReconnectingEv true,
                   Event.reconnectCall false,
                   Event.attemptStarted, Event.setReconnectingEv true,
                   Event.reconnectCall false] }) := by
  simp [handle_exception, recov, errMsg, h1, h2, h3, Nat.add_assoc]

/-- Witness for C3 at a concrete input: with fuel 8, an always-failing
reconnect and both flags off, handle_exception raises the terminal error. -/
theorem C3_witness :
    (handle_exception (mkCfg false false false) 8 "boom"
        (mkW initState { happyEnv with reconnectF := fun _ => false })).1 =
      Except.error Err.terminalRetries := by
  simpa using congrArg Prod.fst
    (C3_bounded_retry_exactly_five (mkCfg false false false) 0 "boom"
      (mkW initState { happyEnv with reconnectF := fun _ => false }) rfl rfl rfl)

/-- Counterexample to C2 as stated: one recovery attempt with
stop_on_error = true (cancel and reconnect succeeding) ends with the
strategy stopped (active = false), yet the very same attempt requested the
connectivity reconnect after the Stopped transition, cleared last_amend_time
(it was some 50) and num_of_sent_orders, and set (and later cleared) the
reconnecting flag — all of which the claim says never happen after the
Stopped transition. -/
theorem C2_counterexample :
    (handle_exceptionI (mkCfg true true false) 10 true "boom"
        (mkW { initState with last_amend_time := some 50, num_of_sent_orders := 3 }
          happyEnv)).1 = Except.ok true ∧
    ((handle_exceptionI (mkCfg true true false) 10 true "boom"
        (mkW { initState with last_amend_time := some 50, num_of_sent_orders := 3 }
          happyEnv)).2).s.active = false ∧
    Event.reconnectCall true ∈
      ((handle_exceptionI (mkCfg true true false) 10 true "boom"
        (mkW { initState with last_amend_time := some 50, num_of_sent_orders := 3 }
          happyEnv)).2).tr ∧
    Event.setReconnectingEv true ∈
      ((handle_exceptionI (mkCfg true true false) 10 true "boom"
        (mkW { initState with last_amend_time := some 50, num_of_sent_orders := 3 }
          happyEnv)).2).tr ∧
    ((handle_exceptionI (mkCfg true true false) 10 true "boom"
        (mkW { initState with last_amend_time := some 50, num_of_sent_orders := 3 }
          happyEnv)).2).s.last_amend_time = none ∧
    ((handle_exceptionI (mkCfg true true false) 10 true "boom"
        (mkW { initState with last_amend_time := some 50, num_of_sent_orders := 3 }
          happyEnv)).2).s.num_of_sent_orders = 0 := by
  simp [handle_exceptionI, recov, mkCfg, happyEnv, initState, mkW, errMsg]

/-- C2 amended: a recovery attempt with stop_on_error = true (cancel and
reconnect succeeding, cancel_on_reconnect = true) cancels live orders and
sets active = false — and active stays false, the Stopped state being
terminal — but the attempt then still sets reconnecting = true, runs reset
(cancelling again, setting the cancel-all flag, and clearing last_amend_time
and num_of_sent_orders), requests the connectivity reconnect, restarts the
warm-up clock, and clears reconnecting before returning True. -/
theorem C2_stop_attempt_still_resets (cfg : Config) (k : ℕ) (msg : String) (w : W)
    (h1 : cfg.cancel_orders_on_reconnection = true)
    (h2 : w.env.cancelF = fun _ => true)
    (h3 : w.env.reconnectF = fun _ => true) :
    handle_exceptionI cfg (k + 4) true msg w =
      (Except.ok true,
       { w with s := { w.s with active := false, reconnecting := false,
                                cancel_all_request_was_sent := true,
                                last_amend_time := none,
                                num_of_sent_orders := 0,
                                started_time := w.env.timeF w.timeIdx },
                cancelIdx := w.cancelIdx + 2,
                reconnectIdx := w.reconnectIdx + 1,
                timeIdx := w.timeIdx + 1,
                tr := w.tr ++
                  [Event.attemptStarted, Event.cancelCall true,
                   Event.setReconnectingEv true, Event.cancelCall true,
                   Event.reconnectCall true, Event.setReconnectingEv false] }) := by
  simp [handle_exceptionI, recov, errMsg, h1, h2, h3, Nat.add_assoc]

/-- Witness for the amended C2 at a concrete input. -/
theorem C2_witness :
    ((handle_exceptionI (mkCfg true true false) 4 true "boom"
        (mkW initState happyEnv)).2).s.active = false := by
  simpa using congrArg (fun p => ((Prod.snd p).s).active)
    (C2_stop_attempt_still_resets (mkCfg true true false) 0 "boom"
      (mkW initState happyEnv) rfl rfl rfl)

/-- Counterexample to C1 as stated: the ledger cancel raises on its first
call (and succeeds on the second); stop_strategy does not propagate that
error to its caller — it returns successfully — and a bounded-retry
recovery attempt was made for it (the attempt-start log event is in the
trace).  The cancel error raised inside the Stopped transition was caught by
the underscore-prefixed cancel_orders (line 136) and routed through
handle_exception (line 137) rather than propagating immediately. -/
theorem C1_counterexample :
    (stop_strategy (mkCfg true false false) 20
        (mkW initState { happyEnv with cancelF := fun n => decide (0 < n) })).1 =
      Except.ok () ∧
    Event.attemptStarted ∈
      ((stop_strategy (mkCfg true false false) 20
        (mkW initState { happyEnv with cancelF := fun n => decide (0 < n) })).2).tr := by
  simp [stop_strategy, recov, mkCfg, happyEnv, initState, mkW, errMsg]

/-- C1 amended: an error raised by the cancel step of the Stopped transition
does not propagate immediately — _cancel_orders catches it and invokes the
bounded-retry handle_exception on it.  If that recovery succeeds (here: the
second cancel call and the reconnect succeed), stop_strategy completes
normally with active = false; the error reaches the caller of stop_strategy
only if the nested recovery itself raises (for example after exhausting its
5 attempts). -/
theorem C1_cancel_error_is_recovered (cfg : Config) (k : ℕ) (w : W)
    (h1 : cfg.stop_strategy_on_error = true)
    (h2 : cfg.cancel_orders_on_reconnection = false)
    (h3 : w.env.cancelF w.cancelIdx = false)
    (h4 : w.env.cancelF (w.cancelIdx + 1) = true)
    (h5 : w.env.reconnectF w.reconnectIdx = true) :
    stop_strategy cfg (k + 7) w =
      (Except.ok (),
       { w with s := { w.s with active := false, reconnecting := false,
                                cancel_all_request_was_sent := false,
                                started_time := w.env.timeF w.timeIdx },
                cancelIdx := w.cancelIdx + 2,
                reconnectIdx := w.reconnectIdx + 1,
                timeIdx := w.timeIdx + 1,
                tr := w.tr ++
                  [Event.cancelCall false, Event.attemptStarted,
                   Event.cancelCall true, Event.setReconnectingEv true,
                   Event.reconnectCall true, Event.setReconnectingEv false] }) := by
  simp [stop_strategy, recov, errMsg, h1, h2, h3, h4, h5, Nat.add_assoc]

/-- Witness for the amended C1 at a concrete input: the failed first cancel
is recovered and stop_strategy returns successfully. -/
theorem C1_witness :
    (stop_strategy (mkCfg true false false) 7
        (mkW initState { happyEnv with cancelF := fun n => decide (0 < n) })).1 =
      Except.ok () := by
  simpa using congrArg Prod.fst
    (C1_cancel_error_is_recovered (mkCfg true false false) 0
      (mkW initState { happyEnv with cancelF := fun n => decide (0 < n) })
      rfl rfl rfl rfl rfl)

/-- Counterexample to C4 as stated: the book is stored, dirty is set,
warm-up has passed, and reconnecting is true.  The tick clears dirty and
process_market_move returns without submitting anything (the trace stays
empty, so no amend call was made); the next tick is then a complete no-op —
the amend is never retried even though no new book change arrived, contrary
to the claim that the update is honoured on a subsequent tick with no new
book change required. -/
theorem C4_counterexample :
    (run (mkCfg false false false) 10
        (mkW { initState with tob := some { best_bid_price := 100, best_ask_price := 101 },
                              update_orders := true, reconnecting := true }
          happyEnv)).1 = Except.ok () ∧
    ((run (mkCfg false false false) 10
        (mkW { initState with tob := some { best_bid_price := 100, best_ask_price := 101 },
                              update_orders := true, reconnecting := true }
          happyEnv)).2).s.update_orders = false ∧
    ((run (mkCfg false false false) 10
        (mkW { initState with tob := some { best_bid_price := 100, best_ask_price := 101 },
                              update_orders := true, reconnecting := true }
          happyEnv)).2).tr = [] ∧
    run (mkCfg false false false) 10
      ((run (mkCfg false false false) 10
        (mkW { initState with tob := some { best_bid_price := 100, best_ask_price := 101 },
                              update_orders := true, reconnecting := true }
          happyEnv)).2) =
      (Except.ok (),
       (run (mkCfg false false false) 10
        (mkW { initState with tob := some { best_bid_price := 100, best_ask_price := 101 },
                              update_orders := true, reconnecting := true }
          happyEnv)).2) := by
  refine ⟨?_, ?_, ?_, ?_⟩ <;>
    simp [run, process_market_move, mkCfg, happyEnv, initState, mkW,
      TIME_TO_WAIT_SINCE_START_SECS, show ¬((100 : ℚ) < 10) by decide]

/-- C4 amended: run clears dirty exactly on the ticks that reach
process_market_move; but when the amend batch is not submitted on that tick
(here: because reconnecting is true), dirty stays cleared and nothing is
retried on the following tick — the world after the second tick is
unchanged, so without a new book change the update is lost, not delayed one
tick. -/
theorem C4_dirty_cleared_without_retry (cfg : Config) (fuel : ℕ) (w : W) (t : Tob)
    (h1 : w.s.active = true)
    (h2 : w.s.tob = some t)
    (h3 : w.s.update_orders = true)
    (h4 : w.s.reconnecting = true)
    (h5 : ¬(w.s.started_time + TIME_TO_WAIT_SINCE_START_SECS >
            w.env.timeF w.timeIdx)) :
    run cfg fuel w =
      (Except.ok (),
       { w with s := { w.s with update_orders := false },
                timeIdx := w.timeIdx + 1 }) ∧
    run cfg fuel
        { w with s := { w.s with update_orders := false },
                 timeIdx := w.timeIdx + 1 } =
      (Except.ok (),
       { w with s := { w.s with update_orders := false },
                timeIdx := w.timeIdx + 1 }) := by
  constructor
  · simp [run, process_market_move, h1, h2, h3, h4, h5]
  · simp [run, h1, h2]

/-- Witness for the amended C4 at a concrete input. -/
theorem C4_witness :
    (run (mkCfg false false false) 3
        (mkW { initState with tob := some { best_bid_price := 100, best_ask_price := 101 },
                              update_orders := true, reconnecting := true }
          happyEnv)).1 = Except.ok () := by
  simpa using congrArg Prod.fst
    ((C4_dirty_cleared_without_retry (mkCfg false false false) 3
      (mkW { initState with tob := some { best_bid_price := 100, best_ask_price := 101 },
                            update_orders := true, reconnecting := true }
        happyEnv)
      { best_bid_price := 100, best_ask_price := 101 }
      rfl rfl rfl rfl (by simp [mkW, happyEnv, initState]; decide)).1)


end

end MarketMakerBot
